import Mathlib

/-!
# Device section of a container runtime spec (`internal/factory/container/device.go`)

A shallow embedding of `SpecAddDevices`, `specAddHostDevicesIfPrivileged`,
`specAddContainerConfigDevices` and `getDeviceUserGroupID`.

Modelling conventions
* Go mutates the spec generator in place and returns an `error`; here every
  operation maps a `State` to a `State × Option Error` (`none` is Go's `nil`
  error). The state after a failing call is the state Go leaves behind.
* `int64` values are `Int`, `uint32` values are `Nat`; the one conversion
  `uint32(x)` of the source is `x % 2 ^ 32`.
* The host (file system, device reader, path resolver, host device
  enumerator, directory walk) is a record `Env` of functions: the answers of
  the collaborators during one call. Every consultation of a collaborator is
  recorded in the ghost field `State.calls`.
* `c.Spec().Config.Linux` and `.Linux.Resources` are taken to be allocated, and
  `c.Config().Linux.SecurityContext` to be present, as the source assumes.
-/

namespace Container

/-! ## Data model -/

/-- Go `error` values that this file can observe. -/
inductive Error where
  /-- The sentinel `devices.ErrNotADevice`. -/
  | ErrNotADevice : Error
  /-- An error for which `os.IsNotExist` holds. -/
  | notExist : Error
  /-- Any other error produced by a collaborator. -/
  | other (msg : String) : Error
  /-- An error made by `errors.Errorf`. -/
  | errorf (msg : String) : Error
  /-- An error made by `errors.Wrap`. -/
  | wrap (cause : Error) (msg : String) : Error
  deriving DecidableEq, Repr

/-- Go `os.IsNotExist`. -/
def IsNotExist : Error → Bool
  | Error.notExist => true
  | _ => false

/-- The struct `rspec.LinuxDevice`. -/
structure LinuxDevice where
  Path : String
  Typ : String
  Major : Int
  Minor : Int
  FileMode : Option Nat
  UID : Option Nat
  GID : Option Nat
  deriving DecidableEq, Repr

/-- The struct `rspec.LinuxDeviceCgroup`; the field `Typ` is the Go field `Type`, whose zero value is `""`. -/
structure LinuxDeviceCgroup where
  Allow : Bool
  Typ : String
  Major : Option Int
  Minor : Option Int
  Access : String
  deriving DecidableEq, Repr

/-- The struct `devicecfg.Device`: a configured or annotation device request. -/
structure ConfigDevice where
  Device : LinuxDevice
  Resource : LinuxDeviceCgroup
  deriving DecidableEq, Repr

/-- The struct `devices.Device` of libcontainer, as far as the source reads it. -/
structure Device where
  Path : String
  Typ : Char
  Major : Int
  Minor : Int
  Permissions : String
  Uid : Nat
  Gid : Nat
  deriving DecidableEq, Repr

/-- The CRI struct `types.Device`: a container device mapping. -/
structure Mapping where
  ContainerPath : String
  HostPath : String
  Permissions : String
  deriving DecidableEq, Repr

/-- What the device-node reader observes at a path. -/
structure DeviceInfo where
  Typ : Char
  Major : Int
  Minor : Int
  Uid : Nat
  Gid : Nat
  deriving DecidableEq, Repr

/-- One invocation of the walk callback: the visited path and the walk error. -/
structure WalkEntry where
  dpath : String
  e : Option Error
  deriving DecidableEq, Repr

/-- A consultation of a collaborator (ghost record). -/
inductive Call where
  | HostDevices : Call
  | Stat (path : String) : Call
  | SecureJoin (root path : String) : Call
  | DeviceFromPath (path permissions : String) : Call
  | IsDirectory (path : String) : Call
  | Walk (root : String) : Call
  deriving DecidableEq, Repr

/-- The container `c` and the answers of its collaborators. -/
structure Env where
  /-- Result of `c.Privileged()`. -/
  Privileged : Bool
  /-- Value of `c.Config().Devices`. -/
  Devices : List Mapping
  /-- Value of `c.Config().Linux.SecurityContext.RunAsUser` (`nil` or its `Value`). -/
  RunAsUser : Option Int
  /-- Value of `c.Config().Linux.SecurityContext.RunAsGroup`. -/
  RunAsGroup : Option Int
  /-- Answer of `devices.HostDevices()`. -/
  HostDevices : Except Error (List Device)
  /-- Error returned by `os.Stat(path)`; `none` when the path exists. -/
  Stat : String → Option Error
  /-- Answer of `securejoin.SecureJoin(root, path)`. -/
  SecureJoin : String → String → Except Error String
  /-- Answer of the device-node reader at a path with the given permissions. -/
  ReadDevice : String → String → Except Error DeviceInfo
  /-- Error returned by `utils.IsDirectory(path)`; `none` for a directory. -/
  IsDirectory : String → Option Error
  /-- Callback invocations `filepath.Walk(root, fn)` makes, in order, when `fn`
  always returns `nil` (as the callback of the source does). -/
  Walk : String → List WalkEntry

/-- The two lists of the spec generator this file touches
(`Config.Linux.Devices`, `Config.Linux.Resources.Devices`) and the ghost
record of collaborator calls. -/
structure State where
  Devices : List LinuxDevice
  ResourcesDevices : List LinuxDeviceCgroup
  calls : List Call
  deriving DecidableEq, Repr

/-! ## Collaborators of the spec generator and the device reader -/

/-- Modelled from the spec: the target spec object's "append device node entry"
operation (`generate.Generator.AddDevice`, a library method outside the source
file). -/
def AddDevice (st : State) (device : LinuxDevice) : State :=
  { st with Devices := st.Devices ++ [device] }

/-- Modelled from the spec: the target spec object's "append cgroup rule"
operation (`generate.Generator.AddLinuxResourcesDevice`, a library method
outside the source file). -/
def AddLinuxResourcesDevice (st : State) (allow : Bool) (devType : String)
    (major minor : Option Int) (access : String) : State :=
  { st with ResourcesDevices := st.ResourcesDevices ++
      [{ Allow := allow, Typ := devType, Major := major, Minor := minor, Access := access }] }

/-- Record a collaborator call. -/
def logCall (st : State) (c : Call) : State :=
  { st with calls := st.calls ++ [c] }

/-- Modelled from the spec: `ReadDevice(path, permissions) -> (kind, major,
minor, ownerUid, ownerGid) | NotADeviceError | IOError`
(`devices.DeviceFromPath`, a library function outside the source file); the
device it returns carries the path and the permissions it was asked for. -/
def DeviceFromPath (env : Env) (path permissions : String) : Except Error Device :=
  match env.ReadDevice path permissions with
  | Except.error err => Except.error err
  | Except.ok i =>
    Except.ok { Path := path, Typ := i.Typ, Major := i.Major, Minor := i.Minor,
                Permissions := permissions, Uid := i.Uid, Gid := i.Gid }

/-- Replace the first occurrence of `old` in `s` by `new` (character lists). -/
def replaceFirst (old new : List Char) : List Char → List Char
  | [] => if old.isPrefixOf [] then new else []
  | c :: t =>
    if old.isPrefixOf (c :: t) then new ++ (c :: t).drop old.length
    else c :: replaceFirst old new t

/-- Go `strings.Replace(s, old, new, 1)`. -/
def stringsReplace1 (s old new : String) : String :=
  String.mk (replaceFirst old.data new.data s.data)

/-! ## The source functions -/

/-- Go `getDeviceUserGroupID` (lines 186-194). The result is a `*uint32`:
`some` is a non-nil pointer. -/
def getDeviceUserGroupID (runAsVal : Option Int) (hostVal : Nat)
    (enableDeviceOwnershipFromSecurityContext : Bool) : Option Nat :=
  match runAsVal with
  | some value =>
    let id : Nat := (value % 2 ^ 32).toNat
    if id > 0 && enableDeviceOwnershipFromSecurityContext then some id
    else some hostVal
  | none => some hostVal

/-- The two identical loops of `SpecAddDevices` (lines 22-27 and 30-35). -/
def addDeviceRequests : List ConfigDevice → State → State
  | [], st => st
  | d :: ds, st =>
    addDeviceRequests ds
      (AddLinuxResourcesDevice (AddDevice st d.Device)
        d.Resource.Allow d.Resource.Typ d.Resource.Major d.Resource.Minor d.Resource.Access)

/-- The `rspec.LinuxDevice` built for a host device (lines 55-62). -/
def hostDeviceEntry (hostDevice : Device) : LinuxDevice :=
  { Path := hostDevice.Path, Typ := String.singleton hostDevice.Typ,
    Major := hostDevice.Major, Minor := hostDevice.Minor, FileMode := none,
    UID := some hostDevice.Uid, GID := some hostDevice.Gid }

/-- The loop over the host devices (lines 54-68). -/
def addHostDevices : List Device → State → State
  | [], st => st
  | hostDevice :: rest, st =>
    let rd := hostDeviceEntry hostDevice
    if hostDevice.Major = 0 ∧ hostDevice.Minor = 0 then addHostDevices rest st
    else addHostDevices rest (AddDevice st rd)

/-- The wildcard rule of lines 70-73. -/
def wildcardRule : LinuxDeviceCgroup :=
  { Allow := true, Typ := "", Major := none, Minor := none, Access := "rwm" }

/-- Go `specAddHostDevicesIfPrivileged` (lines 46-76). -/
def specAddHostDevicesIfPrivileged (env : Env) (privilegedWithoutHostDevices : Bool)
    (st : State) : State × Option Error :=
  if !env.Privileged || privilegedWithoutHostDevices then (st, none)
  else
    let st := logCall st Call.HostDevices
    match env.HostDevices with
    | Except.error err => (st, some err)
    | Except.ok hostDevices =>
      let st := addHostDevices hostDevices st
      ({ st with ResourcesDevices := [wildcardRule] }, none)

/-- The callback passed to `filepath.Walk` (lines 132-161); it always returns `nil`. -/
def walkFn (env : Env) (device : Mapping) (path : String) (w : WalkEntry) (st : State) : State :=
  match w.e with
  | some _ => st
  | none =>
    let st := logCall st (Call.DeviceFromPath w.dpath device.Permissions)
    match DeviceFromPath env w.dpath device.Permissions with
    | Except.error _ => st
    | Except.ok childDevice =>
      let cPath := stringsReplace1 w.dpath path device.ContainerPath
      let rd : LinuxDevice :=
        { Path := cPath, Typ := String.singleton childDevice.Typ,
          Major := childDevice.Major, Minor := childDevice.Minor, FileMode := none,
          UID := some childDevice.Uid, GID := some childDevice.Gid }
      let st := AddDevice st rd
      { st with ResourcesDevices := st.ResourcesDevices ++
          [{ Allow := true, Typ := String.singleton childDevice.Typ,
             Major := some childDevice.Major, Minor := some childDevice.Minor,
             Access := childDevice.Permissions }] }

/-- Go `filepath.Walk(path, fn)` with the callback `walkFn`. -/
def walkAll (env : Env) (device : Mapping) (path : String) : List WalkEntry → State → State
  | [], st => st
  | w :: ws, st => walkAll env device path ws (walkFn env device path w st)

/-- The message of the error of line 93. -/
def securityViolationMsg : String :=
  "privileged container was configured with a device container path that already exists on the host."

/-- The error of line 93. -/
def securityViolation : Error := Error.errorf securityViolationMsg

/-- Lines 100-163: the part of the loop body after the collision check.
`some err` is `return err`, `none` is falling through to the next iteration. -/
def resolveAndAdd (env : Env) (enableDeviceOwnershipFromSecurityContext : Bool)
    (device : Mapping) (st : State) : State × Option Error :=
  let st := logCall st (Call.SecureJoin "/" device.HostPath)
  match env.SecureJoin "/" device.HostPath with
  | Except.error err => (st, some err)
  | Except.ok path =>
    let st := logCall st (Call.DeviceFromPath path device.Permissions)
    match DeviceFromPath env path device.Permissions with
    | Except.ok dev =>
      let rd : LinuxDevice :=
        { Path := device.ContainerPath, Typ := String.singleton dev.Typ,
          Major := dev.Major, Minor := dev.Minor, FileMode := none,
          UID := getDeviceUserGroupID env.RunAsUser dev.Uid enableDeviceOwnershipFromSecurityContext,
          GID := getDeviceUserGroupID env.RunAsGroup dev.Gid enableDeviceOwnershipFromSecurityContext }
      let st := AddDevice st rd
      ({ st with ResourcesDevices := st.ResourcesDevices ++
          [{ Allow := true, Typ := String.singleton dev.Typ,
             Major := some dev.Major, Minor := some dev.Minor,
             Access := dev.Permissions }] }, none)
    | Except.error err =>
      if err = Error.ErrNotADevice then
        let st := logCall st (Call.IsDirectory path)
        match env.IsDirectory path with
        | none =>
          let st := logCall st (Call.Walk path)
          (walkAll env device path (env.Walk path) st, none)
        | some _ => (st, none)
      else (st, none)

/-- The body of the loop of `specAddContainerConfigDevices` (lines 84-163). -/
def deviceBody (env : Env) (enableDeviceOwnershipFromSecurityContext : Bool)
    (device : Mapping) (st : State) : State × Option Error :=
  if env.Privileged && decide (device.ContainerPath ≠ device.HostPath) then
    let st := logCall st (Call.Stat device.ContainerPath)
    match env.Stat device.ContainerPath with
    | none => (st, some securityViolation)
    | some err =>
      if !IsNotExist err then
        (st, some (Error.wrap err "error checking if container path exists on host"))
      else resolveAndAdd env enableDeviceOwnershipFromSecurityContext device st
  else resolveAndAdd env enableDeviceOwnershipFromSecurityContext device st

/-- The loop of `specAddContainerConfigDevices` over a list of mappings (lines 81-165). -/
def configDevicesLoop (env : Env) (enableDeviceOwnershipFromSecurityContext : Bool) :
    List Mapping → State → State × Option Error
  | [], st => (st, none)
  | device :: rest, st =>
    match deviceBody env enableDeviceOwnershipFromSecurityContext device st with
    | (st, some err) => (st, some err)
    | (st, none) => configDevicesLoop env enableDeviceOwnershipFromSecurityContext rest st

/-- Go `specAddContainerConfigDevices` (lines 78-166). -/
def specAddContainerConfigDevices (env : Env) (enableDeviceOwnershipFromSecurityContext : Bool)
    (st : State) : State × Option Error :=
  configDevicesLoop env enableDeviceOwnershipFromSecurityContext env.Devices st

/-- Go `SpecAddDevices` (lines 17-44). -/
def SpecAddDevices (env : Env) (configuredDevices annotationDevices : List ConfigDevice)
    (privilegedWithoutHostDevices enableDeviceOwnershipFromSecurityContext : Bool)
    (st : State) : State × Option Error :=
  let st := { st with Devices := [] }
  let st := addDeviceRequests configuredDevices st
  let st := addDeviceRequests annotationDevices st
  match specAddHostDevicesIfPrivileged env privilegedWithoutHostDevices st with
  | (st, some err) => (st, some err)
  | (st, none) => specAddContainerConfigDevices env enableDeviceOwnershipFromSecurityContext st

/-! ## Auxiliary definitions used to state the results -/

/-- The state with three empty lists. -/
def State.empty : State := { Devices := [], ResourcesDevices := [], calls := [] }

/-- Componentwise concatenation of two states. -/
def State.append (a b : State) : State :=
  { Devices := a.Devices ++ b.Devices,
    ResourcesDevices := a.ResourcesDevices ++ b.ResourcesDevices,
    calls := a.calls ++ b.calls }

/-- The device entry the walk callback adds for a visited path, if any. -/
def walkDevice (env : Env) (device : Mapping) (path : String) (w : WalkEntry) :
    Option LinuxDevice :=
  match w.e with
  | some _ => none
  | none =>
    match env.ReadDevice w.dpath device.Permissions with
    | Except.error _ => none
    | Except.ok i =>
      some { Path := stringsReplace1 w.dpath path device.ContainerPath,
             Typ := String.singleton i.Typ, Major := i.Major, Minor := i.Minor,
             FileMode := none, UID := some i.Uid, GID := some i.Gid }

/-- The cgroup rule the walk callback adds for a visited path, if any. -/
def walkRule (env : Env) (device : Mapping) (w : WalkEntry) : Option LinuxDeviceCgroup :=
  match w.e with
  | some _ => none
  | none =>
    match env.ReadDevice w.dpath device.Permissions with
    | Except.error _ => none
    | Except.ok i =>
      some { Allow := true, Typ := String.singleton i.Typ, Major := some i.Major,
             Minor := some i.Minor, Access := device.Permissions }

/-- The device read the walk callback makes for a visited path, if any. -/
def walkCall (device : Mapping) (w : WalkEntry) : Option Call :=
  match w.e with
  | some _ => none
  | none => some (Call.DeviceFromPath w.dpath device.Permissions)

/-- The collaborator calls of the collision check of lines 89-98. -/
def collisionCalls (env : Env) (device : Mapping) : List Call :=
  if env.Privileged && decide (device.ContainerPath ≠ device.HostPath) then
    [Call.Stat device.ContainerPath]
  else []

/-- The collision check of lines 89-98 lets the mapping through: it is not
made, or `os.Stat` of the container path fails with a does-not-exist error. -/
def collisionCheckPasses (env : Env) (device : Mapping) : Bool :=
  !(env.Privileged && decide (device.ContainerPath ≠ device.HostPath)) ||
    (match env.Stat device.ContainerPath with
     | some err => IsNotExist err
     | none => false)

/-! ## Concrete hosts and requests used by the examples -/

/-- A host on which nothing exists: every path is absent, no path is a device
or a directory, and the container is not privileged and has no mappings. -/
def Env.bare : Env :=
  { Privileged := false, Devices := [], RunAsUser := none, RunAsGroup := none,
    HostDevices := Except.ok [],
    Stat := fun _ => some Error.notExist,
    SecureJoin := fun _ p => Except.ok p,
    ReadDevice := fun _ _ => Except.error Error.ErrNotADevice,
    IsDirectory := fun _ => some (Error.other "not a directory"),
    Walk := fun _ => [] }

/-- The character device `1:3` owned by `0:0`. -/
def nullInfo : DeviceInfo := { Typ := 'c', Major := 1, Minor := 3, Uid := 0, Gid := 0 }

/-- A privileged host with three device nodes, the second one with major and
minor both zero. -/
def hostEnv : Env :=
  { Env.bare with
    Privileged := true,
    HostDevices := Except.ok
      [ { Path := "/dev/null", Typ := 'c', Major := 1, Minor := 3, Permissions := "rwm",
          Uid := 0, Gid := 0 },
        { Path := "/dev/link", Typ := 'c', Major := 0, Minor := 0, Permissions := "rwm",
          Uid := 0, Gid := 0 },
        { Path := "/dev/sda", Typ := 'b', Major := 8, Minor := 0, Permissions := "rwm",
          Uid := 0, Gid := 6 } ] }

/-- A privileged container that runs as `1000:0` and maps the host device
`/dev/null` to the container path `/dev/mynull`. -/
def nullEnv : Env :=
  { Env.bare with
    Privileged := true,
    RunAsUser := some 1000,
    RunAsGroup := some 0,
    Devices := [{ ContainerPath := "/dev/mynull", HostPath := "/dev/null", Permissions := "rw" }],
    ReadDevice := fun p _ =>
      if p = "/dev/null" then Except.ok nullInfo else Except.error Error.ErrNotADevice }

/-- A host on which reading `/dev/bad` is refused and `/dev/null` is a device;
the container maps `/dev/bad` first and `/dev/null` second. -/
def refusedEnv : Env :=
  { Env.bare with
    Devices := [{ ContainerPath := "/dev/bad", HostPath := "/dev/bad", Permissions := "rw" },
                { ContainerPath := "/dev/null", HostPath := "/dev/null", Permissions := "rw" }],
    ReadDevice := fun p _ =>
      if p = "/dev/bad" then Except.error (Error.other "permission denied")
      else if p = "/dev/null" then Except.ok nullInfo
      else Except.error Error.ErrNotADevice }

/-- A host with the device `/dev/null` and the regular file `/etc/hosts`; the
container maps the file first and the device second. -/
def fileEnv : Env :=
  { Env.bare with
    Devices := [{ ContainerPath := "/hosts", HostPath := "/etc/hosts", Permissions := "r" },
                { ContainerPath := "/dev/null", HostPath := "/dev/null", Permissions := "rw" }],
    ReadDevice := fun p _ =>
      if p = "/dev/null" then Except.ok nullInfo else Except.error Error.ErrNotADevice }

/-- A privileged container that runs as uid 1000 and maps the host directory
`/dev/dir` to `/dev/in`. The directory holds the device `null` (owned by uid
0), the regular file `file` and an entry `gone` the walk cannot stat. -/
def dirEnv : Env :=
  { Env.bare with
    Privileged := true,
    RunAsUser := some 1000,
    RunAsGroup := some 1000,
    Devices := [{ ContainerPath := "/dev/in", HostPath := "/dev/dir", Permissions := "rw" }],
    ReadDevice := fun p _ =>
      if p = "/dev/dir/null" then Except.ok nullInfo else Except.error Error.ErrNotADevice,
    IsDirectory := fun p =>
      if p = "/dev/dir" then none else some (Error.other "not a directory"),
    Walk := fun p =>
      if p = "/dev/dir" then
        [ { dpath := "/dev/dir", e := none },
          { dpath := "/dev/dir/file", e := none },
          { dpath := "/dev/dir/gone", e := some (Error.other "lstat failed") },
          { dpath := "/dev/dir/null", e := none } ]
      else [] }

/-- A privileged container with three mappings: the device `/dev/null` under
its own path, then the device `/dev/sda` under the container path
`/etc/passwd`, which exists on the host, then `/dev/null` again. -/
def collisionEnv : Env :=
  { Env.bare with
    Privileged := true,
    Devices := [{ ContainerPath := "/dev/null", HostPath := "/dev/null", Permissions := "rw" },
                { ContainerPath := "/etc/passwd", HostPath := "/dev/sda", Permissions := "rw" },
                { ContainerPath := "/dev/zero", HostPath := "/dev/null", Permissions := "rw" }],
    Stat := fun p => if p = "/etc/passwd" then none else some Error.notExist,
    ReadDevice := fun p _ =>
      if p = "/dev/null" then Except.ok nullInfo
      else if p = "/dev/sda" then
        Except.ok { Typ := 'b', Major := 8, Minor := 0, Uid := 0, Gid := 6 }
      else Except.error Error.ErrNotADevice }

/-- A configured request for the device `/dev/fuse`. -/
def fuseRequest : ConfigDevice :=
  { Device := { Path := "/dev/fuse", Typ := "c", Major := 10, Minor := 229, FileMode := none,
                UID := some 0, GID := some 0 },
    Resource := { Allow := true, Typ := "c", Major := some 10, Minor := some 229,
                  Access := "rwm" } }

/-! ## Framing: every step only appends to the three lists -/

theorem State.append_empty (a : State) : a.append State.empty = a := by
  cases a; simp [State.append, State.empty]

theorem State.empty_append (a : State) : State.empty.append a = a := by
  cases a; simp [State.append, State.empty]

theorem State.append_assoc (a b c : State) : (a.append b).append c = a.append (b.append c) := by
  simp [State.append]

theorem walkFn_frame (env : Env) (device : Mapping) (path : String) (w : WalkEntry) (st : State) :
    walkFn env device path w st = st.append (walkFn env device path w State.empty) := by
  cases st
  unfold walkFn
  cases w.e with
  | some _ => simp [State.append, State.empty]
  | none =>
    cases DeviceFromPath env w.dpath device.Permissions <;>
      simp [State.append, State.empty, logCall, AddDevice]

theorem walkAll_frame (env : Env) (device : Mapping) (path : String) (ws : List WalkEntry) :
    ∀ st : State, walkAll env device path ws st
      = st.append (walkAll env device path ws State.empty) := by
  induction ws with
  | nil => intro st; simp [walkAll, State.append_empty]
  | cons w ws ih =>
    intro st
    simp only [walkAll]
    rw [ih (walkFn env device path w st), ih (walkFn env device path w State.empty),
      walkFn_frame env device path w st, State.append_assoc]

theorem resolveAndAdd_frame (env : Env) (flag : Bool) (device : Mapping) (st : State) :
    resolveAndAdd env flag device st
      = (st.append (resolveAndAdd env flag device State.empty).1,
          (resolveAndAdd env flag device State.empty).2) := by
  unfold resolveAndAdd
  cases hj : env.SecureJoin "/" device.HostPath with
  | error err => cases st; simp [State.append, State.empty, logCall]
  | ok path =>
    cases hd : DeviceFromPath env path device.Permissions with
    | ok dev => cases st; simp [hd, State.append, State.empty, logCall, AddDevice]
    | error err =>
      by_cases hnd : err = Error.ErrNotADevice
      · cases hdir : env.IsDirectory path with
        | some e => cases st; simp [hd, hnd, hdir, State.append, State.empty, logCall]
        | none =>
          simp only [hd, hnd, hdir, if_true]
          rw [walkAll_frame env device path (env.Walk path)
                (logCall (logCall (logCall (logCall st _) _) _) _),
              walkAll_frame env device path (env.Walk path)
                (logCall (logCall (logCall (logCall State.empty _) _) _) _)]
          cases st; simp [State.append, State.empty, logCall]
      · cases st; simp [hd, hnd, State.append, State.empty, logCall]

theorem deviceBody_frame (env : Env) (flag : Bool) (device : Mapping) (st : State) :
    deviceBody env flag device st
      = (st.append (deviceBody env flag device State.empty).1,
          (deviceBody env flag device State.empty).2) := by
  unfold deviceBody
  by_cases hc : (env.Privileged && decide (device.ContainerPath ≠ device.HostPath)) = true
  · simp only [hc, if_true]
    cases hs : env.Stat device.ContainerPath with
    | none => cases st; simp [State.append, State.empty, logCall]
    | some err =>
      by_cases hne : (!IsNotExist err) = true
      · cases st; simp [hne, State.append, State.empty, logCall]
      · simp only [hne, if_false]
        rw [resolveAndAdd_frame env flag device (logCall st _),
          resolveAndAdd_frame env flag device (logCall State.empty _)]
        cases st; simp [State.append, State.empty, logCall]
  · simp only [hc, if_false]
    exact resolveAndAdd_frame env flag device st

theorem configDevicesLoop_frame (env : Env) (flag : Bool) (ms : List Mapping) :
    ∀ st : State, configDevicesLoop env flag ms st
      = (st.append (configDevicesLoop env flag ms State.empty).1,
          (configDevicesLoop env flag ms State.empty).2) := by
  induction ms with
  | nil => intro st; simp [configDevicesLoop, State.append_empty]
  | cons m ms ih =>
    intro st
    simp only [configDevicesLoop]
    rw [deviceBody_frame env flag m st]
    rcases hb : deviceBody env flag m State.empty with ⟨s1, _ | err⟩
    · simp only
      rw [ih (st.append s1), ih s1, State.append_assoc]
    · simp only

/-- Running the loop over a concatenation: the second part runs only if the
first part returned no error. -/
theorem configDevicesLoop_append (env : Env) (flag : Bool) (pre post : List Mapping) :
    ∀ st : State, configDevicesLoop env flag (pre ++ post) st
      = match configDevicesLoop env flag pre st with
        | (st1, some err) => (st1, some err)
        | (st1, none) => configDevicesLoop env flag post st1 := by
  induction pre with
  | nil => intro st; simp [configDevicesLoop]
  | cons m ms ih =>
    intro st
    simp only [List.cons_append, configDevicesLoop]
    rcases hb : deviceBody env flag m st with ⟨s1, _ | err⟩
    · simp only
      exact ih s1
    · simp only

theorem addDeviceRequests_eq (ds : List ConfigDevice) :
    ∀ st : State, addDeviceRequests ds st
      = { Devices := st.Devices ++ ds.map ConfigDevice.Device,
          ResourcesDevices := st.ResourcesDevices ++ ds.map ConfigDevice.Resource,
          calls := st.calls } := by
  induction ds with
  | nil => intro st; cases st; simp [addDeviceRequests]
  | cons d ds ih =>
    intro st
    simp only [addDeviceRequests]
    rw [ih]
    cases st
    simp [AddDevice, AddLinuxResourcesDevice]

theorem addHostDevices_eq (hs : List Device) :
    ∀ st : State, addHostDevices hs st
      = { Devices := st.Devices ++
            (hs.filter (fun d => decide (d.Major ≠ 0 ∨ d.Minor ≠ 0))).map hostDeviceEntry,
          ResourcesDevices := st.ResourcesDevices,
          calls := st.calls } := by
  induction hs with
  | nil => intro st; cases st; simp [addHostDevices]
  | cons d ds ih =>
    intro st
    simp only [addHostDevices]
    by_cases hz : d.Major = 0 ∧ d.Minor = 0
    · rw [if_pos hz, ih]
      simp [List.filter_cons, hz]
    · rw [if_neg hz, ih]
      have hz2 : d.Major ≠ 0 ∨ d.Minor ≠ 0 := by
        by_cases h0 : d.Major = 0
        · exact Or.inr (fun h1 => hz ⟨h0, h1⟩)
        · exact Or.inl h0
      cases st
      simp [List.filter_cons, hz2, AddDevice]

/-! ## The walk callback and the loop body, case by case -/

theorem walkFn_empty (env : Env) (device : Mapping) (path : String) (w : WalkEntry) :
    walkFn env device path w State.empty
      = { Devices := (walkDevice env device path w).toList,
          ResourcesDevices := (walkRule env device w).toList,
          calls := (walkCall device w).toList } := by
  unfold walkFn walkDevice walkRule walkCall DeviceFromPath
  cases w.e with
  | some _ => simp [State.empty]
  | none =>
    cases hr : env.ReadDevice w.dpath device.Permissions <;>
      simp [State.empty, logCall, AddDevice]

theorem filterMap_cons_toList {α β : Type} (f : α → Option β) (a : α) (l : List α) :
    List.filterMap f (a :: l) = (f a).toList ++ List.filterMap f l := by
  cases h : f a <;> simp [List.filterMap_cons, h]

theorem walkAll_empty (env : Env) (device : Mapping) (path : String) (ws : List WalkEntry) :
    walkAll env device path ws State.empty
      = { Devices := ws.filterMap (walkDevice env device path),
          ResourcesDevices := ws.filterMap (walkRule env device),
          calls := ws.filterMap (walkCall device) } := by
  induction ws with
  | nil => simp [walkAll, State.empty]
  | cons w ws ih =>
    simp only [walkAll]
    rw [walkAll_frame, ih, walkFn_empty]
    simp [State.append, filterMap_cons_toList]

theorem deviceBody_of_passes (env : Env) (flag : Bool) (device : Mapping) (st : State)
    (hpass : collisionCheckPasses env device = true) :
    deviceBody env flag device st
      = resolveAndAdd env flag device
          { st with calls := st.calls ++ collisionCalls env device } := by
  unfold deviceBody collisionCalls
  unfold collisionCheckPasses at hpass
  by_cases hc : (env.Privileged && decide (device.ContainerPath ≠ device.HostPath)) = true
  · simp only [hc, if_true]
    rw [hc] at hpass
    cases hs : env.Stat device.ContainerPath with
    | none => rw [hs] at hpass; simp at hpass
    | some err =>
      rw [hs] at hpass
      have hne : IsNotExist err = true := by simpa using hpass
      simp [hne, logCall]
  · simp only [hc, if_false]
    cases st; simp

theorem deviceBody_of_exists (env : Env) (flag : Bool) (device : Mapping) (st : State)
    (hp : env.Privileged = true) (hne : device.ContainerPath ≠ device.HostPath)
    (hs : env.Stat device.ContainerPath = none) :
    deviceBody env flag device st
      = ({ st with calls := st.calls ++ [Call.Stat device.ContainerPath] },
          some securityViolation) := by
  simp [deviceBody, hp, hne, hs, logCall]

theorem resolveAndAdd_of_device (env : Env) (flag : Bool) (device : Mapping) (st : State)
    (path : String) (i : DeviceInfo)
    (hjoin : env.SecureJoin "/" device.HostPath = Except.ok path)
    (hread : env.ReadDevice path device.Permissions = Except.ok i) :
    resolveAndAdd env flag device st
      = ({ Devices := st.Devices ++
            [{ Path := device.ContainerPath, Typ := String.singleton i.Typ, Major := i.Major,
               Minor := i.Minor, FileMode := none,
               UID := getDeviceUserGroupID env.RunAsUser i.Uid flag,
               GID := getDeviceUserGroupID env.RunAsGroup i.Gid flag }],
           ResourcesDevices := st.ResourcesDevices ++
            [{ Allow := true, Typ := String.singleton i.Typ, Major := some i.Major,
               Minor := some i.Minor, Access := device.Permissions }],
           calls := st.calls ++
            [Call.SecureJoin "/" device.HostPath, Call.DeviceFromPath path device.Permissions] },
          none) := by
  simp [resolveAndAdd, DeviceFromPath, hjoin, hread, logCall, AddDevice]

theorem resolveAndAdd_of_readError (env : Env) (flag : Bool) (device : Mapping) (st : State)
    (path : String) (err : Error)
    (hjoin : env.SecureJoin "/" device.HostPath = Except.ok path)
    (hread : env.ReadDevice path device.Permissions = Except.error err)
    (herr : err ≠ Error.ErrNotADevice) :
    resolveAndAdd env flag device st
      = ({ st with calls := st.calls ++
            [Call.SecureJoin "/" device.HostPath, Call.DeviceFromPath path device.Permissions] },
          none) := by
  simp [resolveAndAdd, DeviceFromPath, hjoin, hread, herr, logCall]

theorem resolveAndAdd_of_notDirectory (env : Env) (flag : Bool) (device : Mapping) (st : State)
    (path : String) (e : Error)
    (hjoin : env.SecureJoin "/" device.HostPath = Except.ok path)
    (hread : env.ReadDevice path device.Permissions = Except.error Error.ErrNotADevice)
    (hdir : env.IsDirectory path = some e) :
    resolveAndAdd env flag device st
      = ({ st with calls := st.calls ++
            [Call.SecureJoin "/" device.HostPath, Call.DeviceFromPath path device.Permissions,
             Call.IsDirectory path] },
          none) := by
  simp [resolveAndAdd, DeviceFromPath, hjoin, hread, hdir, logCall]

theorem resolveAndAdd_of_directory (env : Env) (flag : Bool) (device : Mapping) (st : State)
    (path : String)
    (hjoin : env.SecureJoin "/" device.HostPath = Except.ok path)
    (hread : env.ReadDevice path device.Permissions = Except.error Error.ErrNotADevice)
    (hdir : env.IsDirectory path = none) :
    resolveAndAdd env flag device st
      = ({ Devices := st.Devices ++ (env.Walk path).filterMap (walkDevice env device path),
           ResourcesDevices := st.ResourcesDevices ++
             (env.Walk path).filterMap (walkRule env device),
           calls := st.calls ++
            [Call.SecureJoin "/" device.HostPath, Call.DeviceFromPath path device.Permissions,
             Call.IsDirectory path, Call.Walk path] ++
            (env.Walk path).filterMap (walkCall device) },
          none) := by
  simp only [resolveAndAdd, DeviceFromPath, hjoin, hread, hdir, if_true]
  rw [walkAll_frame, walkAll_empty]
  simp [State.append, logCall]

/-- One more iteration, without error, after a prefix that returned no error. -/
theorem configDevicesLoop_step (env : Env) (flag : Bool) (pre post : List Mapping)
    (m : Mapping) (st st1 st2 : State)
    (hpre : configDevicesLoop env flag pre st = (st1, none))
    (hbody : deviceBody env flag m st1 = (st2, none)) :
    configDevicesLoop env flag (pre ++ m :: post) st
      = configDevicesLoop env flag post st2 := by
  rw [configDevicesLoop_append, hpre]
  simp only [configDevicesLoop, hbody]

/-- One more iteration, failing, after a prefix that returned no error. -/
theorem configDevicesLoop_step_error (env : Env) (flag : Bool) (pre post : List Mapping)
    (m : Mapping) (st st1 st2 : State) (err : Error)
    (hpre : configDevicesLoop env flag pre st = (st1, none))
    (hbody : deviceBody env flag m st1 = (st2, some err)) :
    configDevicesLoop env flag (pre ++ m :: post) st = (st2, some err) := by
  rw [configDevicesLoop_append, hpre]
  simp only [configDevicesLoop, hbody]

/-- The lists and the error the loop leaves do not depend on the record of
collaborator calls it starts from. -/
theorem configDevicesLoop_calls_irrelevant (env : Env) (flag : Bool) (ms : List Mapping)
    (st : State) (cs : List Call) :
    (configDevicesLoop env flag ms { st with calls := cs }).1.Devices
        = (configDevicesLoop env flag ms st).1.Devices ∧
      (configDevicesLoop env flag ms { st with calls := cs }).1.ResourcesDevices
        = (configDevicesLoop env flag ms st).1.ResourcesDevices ∧
      (configDevicesLoop env flag ms { st with calls := cs }).2
        = (configDevicesLoop env flag ms st).2 := by
  rw [configDevicesLoop_frame env flag ms { st with calls := cs },
    configDevicesLoop_frame env flag ms st]
  simp [State.append]

theorem replaceFirst_at_start (old new s : List Char) (h : old <+: s) :
    replaceFirst old new s = new ++ s.drop old.length := by
  cases s with
  | nil =>
    have h0 : old = [] := List.prefix_nil.mp h
    subst h0
    simp [replaceFirst]
  | cons c t =>
    have hp : old.isPrefixOf (c :: t) = true := List.isPrefixOf_iff_prefix.mpr h
    simp [replaceFirst, hp]

theorem stringsReplace1_at_start (s old new : String) (h : old.data <+: s.data) :
    stringsReplace1 s old new = new ++ String.mk (s.data.drop old.length) := by
  unfold stringsReplace1
  rw [replaceFirst_at_start old.data new.data s.data h]
  cases old
  cases new
  rfl

theorem length_filterMap_eq_length_filter {α β : Type} (f : α → Option β) (l : List α) :
    (l.filterMap f).length = (l.filter (fun a => (f a).isSome)).length := by
  induction l with
  | nil => rfl
  | cons a l ih =>
    cases h : f a <;> simp [List.filterMap_cons, List.filter_cons, h, ih]

/-! ## `SpecAddDevices`, case by case -/

theorem SpecAddDevices_of_skipped (env : Env) (cfg ann : List ConfigDevice)
    (pwhd flag : Bool) (st : State) (h : env.Privileged = false ∨ pwhd = true) :
    SpecAddDevices env cfg ann pwhd flag st
      = configDevicesLoop env flag env.Devices
          { Devices := cfg.map ConfigDevice.Device ++ ann.map ConfigDevice.Device,
            ResourcesDevices := st.ResourcesDevices ++ cfg.map ConfigDevice.Resource ++
              ann.map ConfigDevice.Resource,
            calls := st.calls } := by
  have hskip : ∀ s : State, specAddHostDevicesIfPrivileged env pwhd s = (s, none) := by
    intro s
    rcases h with h | h <;> simp [specAddHostDevicesIfPrivileged, h]
  simp only [SpecAddDevices, hskip, specAddContainerConfigDevices, addDeviceRequests_eq]
  simp

theorem SpecAddDevices_of_hostDevices (env : Env) (cfg ann : List ConfigDevice)
    (flag : Bool) (st : State) (L : List Device) (hp : env.Privileged = true)
    (hL : env.HostDevices = Except.ok L) :
    SpecAddDevices env cfg ann false flag st
      = configDevicesLoop env flag env.Devices
          { Devices := cfg.map ConfigDevice.Device ++ ann.map ConfigDevice.Device ++
              (L.filter (fun d => decide (d.Major ≠ 0 ∨ d.Minor ≠ 0))).map hostDeviceEntry,
            ResourcesDevices := [wildcardRule],
            calls := st.calls ++ [Call.HostDevices] } := by
  simp only [SpecAddDevices, specAddHostDevicesIfPrivileged, hp, hL,
    specAddContainerConfigDevices, addDeviceRequests_eq, addHostDevices_eq]
  simp [logCall]

theorem SpecAddDevices_of_enumerationError (env : Env) (cfg ann : List ConfigDevice)
    (flag : Bool) (st : State) (err : Error) (hp : env.Privileged = true)
    (hE : env.HostDevices = Except.error err) :
    SpecAddDevices env cfg ann false flag st
      = ({ Devices := cfg.map ConfigDevice.Device ++ ann.map ConfigDevice.Device,
           ResourcesDevices := st.ResourcesDevices ++ cfg.map ConfigDevice.Resource ++
             ann.map ConfigDevice.Resource,
           calls := st.calls ++ [Call.HostDevices] }, some err) := by
  simp only [SpecAddDevices, specAddHostDevicesIfPrivileged, hp, hE,
    addDeviceRequests_eq]
  simp [logCall]

/-! ## Ownership resolution (`getDeviceUserGroupID`) -/

/-- C1, refuted as stated: the run-as value `2 ^ 32` is present, greater than
zero and the flag is on, yet the result is the host id `7`, not the run-as
value; and the run-as value `-1` is not greater than zero, yet the result is
`4294967295`, not the host id `7`. -/
theorem getDeviceUserGroupID_not_value_counterexample :
    ((0 : Int) < 4294967296 ∧ (4294967296 : Int) < 2 ^ 63 ∧
      getDeviceUserGroupID (some 4294967296) 7 true = some 7 ∧
      getDeviceUserGroupID (some 4294967296) 7 true ≠ some (Int.toNat 4294967296)) ∧
    (¬ ((0 : Int) < -1) ∧ (-(2 : Int) ^ 63 ≤ -1) ∧
      getDeviceUserGroupID (some (-1)) 7 true = some 4294967295 ∧
      getDeviceUserGroupID (some (-1)) 7 true ≠ some 7) := by
  decide

/-- C1, amended: `getDeviceUserGroupID v h b` is always a set id; it is the
run-as value reduced modulo `2 ^ 32` when the run-as value is present, that
reduced value is greater than zero and the flag is on, and the host id `h` in
every other case. For a run-as value in `[0, 2 ^ 32)` the reduced value is the
run-as value itself, so there the result is the run-as value when it is
positive and the flag is on, and `h` otherwise. -/
theorem getDeviceUserGroupID_spec (v : Option Int) (h : Nat) (b : Bool) :
    getDeviceUserGroupID v h b
        = some (match v with
                | some x => if 0 < x % 2 ^ 32 ∧ b = true then (x % 2 ^ 32).toNat else h
                | none => h) ∧
      (∀ x : Int, v = some x → 0 ≤ x → x < 2 ^ 32 →
        getDeviceUserGroupID v h b = some (if 0 < x ∧ b = true then x.toNat else h)) := by
  have key : ∀ x : Int, getDeviceUserGroupID (some x) h b
      = some (if 0 < x % 2 ^ 32 ∧ b = true then (x % 2 ^ 32).toNat else h) := by
    intro x
    unfold getDeviceUserGroupID
    have hiff : 0 < (x % 2 ^ 32).toNat ↔ 0 < x % 2 ^ 32 := by omega
    cases b
    · simp
    · simp only [Bool.and_true, decide_eq_true_eq, hiff, and_true]
      split <;> rfl
  constructor
  · cases v with
    | none => rfl
    | some x => exact key x
  · intro x hv h0 h1
    subst hv
    rw [key x, Int.emod_eq_of_lt h0 h1]

/-- C1 witness: run-as id `1000`, host id `0`, flag on. -/
theorem getDeviceUserGroupID_spec_witness :
    getDeviceUserGroupID (some 1000) 0 true
      = some (if (0 : Int) < 1000 ∧ true = true then (1000 : Int).toNat else 0) :=
  (getDeviceUserGroupID_spec (some 1000) 0 true).2 1000 rfl (by decide) (by decide)

/-! ## Privileged host passthrough (`specAddHostDevicesIfPrivileged`) -/

/-- C4: for a privileged container with host-device suppression off, when the
host enumeration succeeds with list `L` the step appends to the device list,
in enumeration order, one entry (same path, kind, major, minor, uid, gid) for
each element of `L` whose major or minor is non-zero and none for the others,
leaves as cgroup-rule list exactly the one wildcard rule (`allow = true`,
`access = "rwm"`, no type, major or minor) and returns no error; when the
enumeration fails the step returns that error. -/
theorem specAddHostDevicesIfPrivileged_privileged (env : Env) (st : State)
    (hp : env.Privileged = true) :
    (∀ L : List Device, env.HostDevices = Except.ok L →
      specAddHostDevicesIfPrivileged env false st
        = ({ Devices := st.Devices ++
              (L.filter (fun d => decide (d.Major ≠ 0 ∨ d.Minor ≠ 0))).map
                (fun d => { Path := d.Path, Typ := String.singleton d.Typ, Major := d.Major,
                            Minor := d.Minor, FileMode := none, UID := some d.Uid,
                            GID := some d.Gid }),
             ResourcesDevices :=
               [{ Allow := true, Typ := "", Major := none, Minor := none, Access := "rwm" }],
             calls := st.calls ++ [Call.HostDevices] }, none)) ∧
    (∀ err : Error, env.HostDevices = Except.error err →
      (specAddHostDevicesIfPrivileged env false st).2 = some err) := by
  constructor
  · intro L hL
    simp only [specAddHostDevicesIfPrivileged, hp, hL, addHostDevices_eq]
    simp [logCall, wildcardRule]
    intro a _ _
    rfl
  · intro err hE
    simp [specAddHostDevicesIfPrivileged, hp, hE]

/-- C4 witness: on `hostEnv` the two valid nodes are added, the zero node is
not, and the rule list is the single wildcard rule. -/
theorem specAddHostDevicesIfPrivileged_privileged_witness :
    specAddHostDevicesIfPrivileged hostEnv false State.empty
      = ({ Devices :=
            [ { Path := "/dev/null", Typ := "c", Major := 1, Minor := 3, FileMode := none,
                UID := some 0, GID := some 0 },
              { Path := "/dev/sda", Typ := "b", Major := 8, Minor := 0, FileMode := none,
                UID := some 0, GID := some 6 } ],
           ResourcesDevices :=
             [{ Allow := true, Typ := "", Major := none, Minor := none, Access := "rwm" }],
           calls := [Call.HostDevices] }, none) :=
  (specAddHostDevicesIfPrivileged_privileged hostEnv State.empty rfl).1 _ rfl

/-- C5: when the container is not privileged or host-device suppression is
on, the step returns no error and leaves the device list, the cgroup-rule list
and the record of collaborator calls exactly as they were: the host device
enumerator is not consulted, whatever it would have answered. -/
theorem specAddHostDevicesIfPrivileged_skipped (env : Env)
    (privilegedWithoutHostDevices : Bool) (st : State)
    (h : env.Privileged = false ∨ privilegedWithoutHostDevices = true) :
    specAddHostDevicesIfPrivileged env privilegedWithoutHostDevices st = (st, none) := by
  rcases h with h | h <;> simp [specAddHostDevicesIfPrivileged, h]

/-- C5 witness: a privileged container with suppression on, on a host whose
enumeration would fail. -/
theorem specAddHostDevicesIfPrivileged_skipped_witness :
    specAddHostDevicesIfPrivileged
        { hostEnv with HostDevices := Except.error (Error.other "enumeration failed") }
        true State.empty
      = (State.empty, none) :=
  specAddHostDevicesIfPrivileged_skipped _ true State.empty (Or.inr rfl)

/-! ## Per-container device mappings (`specAddContainerConfigDevices`) -/

/-- C8: a mapping that passes the collision check, whose host path resolves
and whose device read at the resolved path succeeds gets exactly one device
entry and one cgroup rule, appended to what the earlier mappings left, and the
loop goes on with the later mappings. The entry has the mapping's container
path, the kind, major and minor read, uid `getDeviceUserGroupID` of the run-as
user and the read uid, gid likewise with the run-as group and the read gid;
the rule is `allow = true` with the read kind, major, minor and the requested
access string. With run-as uid 1000, the flag on and host uid 0 the uid is
1000. -/
theorem specAddContainerConfigDevices_device (env : Env) (flag : Bool)
    (pre post : List Mapping) (m : Mapping) (st st1 : State) (path : String) (i : DeviceInfo)
    (hdev : env.Devices = pre ++ m :: post)
    (hpre : configDevicesLoop env flag pre st = (st1, none))
    (hpass : collisionCheckPasses env m = true)
    (hjoin : env.SecureJoin "/" m.HostPath = Except.ok path)
    (hread : env.ReadDevice path m.Permissions = Except.ok i) :
    specAddContainerConfigDevices env flag st
        = configDevicesLoop env flag post
            { Devices := st1.Devices ++
                [{ Path := m.ContainerPath, Typ := String.singleton i.Typ, Major := i.Major,
                   Minor := i.Minor, FileMode := none,
                   UID := getDeviceUserGroupID env.RunAsUser i.Uid flag,
                   GID := getDeviceUserGroupID env.RunAsGroup i.Gid flag }],
              ResourcesDevices := st1.ResourcesDevices ++
                [{ Allow := true, Typ := String.singleton i.Typ, Major := some i.Major,
                   Minor := some i.Minor, Access := m.Permissions }],
              calls := st1.calls ++ collisionCalls env m ++
                [Call.SecureJoin "/" m.HostPath, Call.DeviceFromPath path m.Permissions] } ∧
      getDeviceUserGroupID (some 1000) 0 true = some 1000 := by
  refine ⟨?_, by decide⟩
  rw [specAddContainerConfigDevices, hdev,
    configDevicesLoop_step env flag pre post m st st1 _ hpre
      ((deviceBody_of_passes env flag m st1 hpass).trans
        (resolveAndAdd_of_device env flag m _ path i hjoin hread))]

/-- C8 witness: on `nullEnv` with the flag on, the entry is at `/dev/mynull`
with uid 1000 (run-as) and gid 0 (host). -/
theorem specAddContainerConfigDevices_device_witness :
    specAddContainerConfigDevices nullEnv true State.empty
      = ({ Devices :=
            [{ Path := "/dev/mynull", Typ := "c", Major := 1, Minor := 3, FileMode := none,
               UID := some 1000, GID := some 0 }],
           ResourcesDevices :=
            [{ Allow := true, Typ := "c", Major := some 1, Minor := some 3, Access := "rw" }],
           calls := [Call.Stat "/dev/mynull", Call.SecureJoin "/" "/dev/null",
                     Call.DeviceFromPath "/dev/null" "rw"] }, none) :=
  (specAddContainerConfigDevices_device nullEnv true [] []
    { ContainerPath := "/dev/mynull", HostPath := "/dev/null", Permissions := "rw" }
    State.empty State.empty "/dev/null" nullInfo rfl rfl rfl rfl rfl).1

/-- C3, refuted as stated: on `refusedEnv` the first mapping's device read
fails with a permission error (not "not a device"), yet the call returns no
error and the second mapping is processed and gets its entry. -/
theorem specAddContainerConfigDevices_readError_counterexample :
    refusedEnv.SecureJoin "/" "/dev/bad" = Except.ok "/dev/bad" ∧
      refusedEnv.ReadDevice "/dev/bad" "rw" = Except.error (Error.other "permission denied") ∧
      Error.other "permission denied" ≠ Error.ErrNotADevice ∧
      (specAddContainerConfigDevices refusedEnv false State.empty).2 = none ∧
      (specAddContainerConfigDevices refusedEnv false State.empty).1.Devices
        = [{ Path := "/dev/null", Typ := "c", Major := 1, Minor := 3, FileMode := none,
             UID := some 0, GID := some 0 }] :=
  ⟨rfl, rfl, by decide, rfl, rfl⟩

/-- C3, amended: a mapping whose device read at the resolved host path fails
with an error other than "not a device" does not abort the build: no device
entry and no cgroup rule is added for it, no error is returned for it, and the
loop goes on with the later mappings from the lists the earlier mappings
left. -/
theorem specAddContainerConfigDevices_readError (env : Env) (flag : Bool)
    (pre post : List Mapping) (m : Mapping) (st st1 : State) (path : String) (err : Error)
    (hdev : env.Devices = pre ++ m :: post)
    (hpre : configDevicesLoop env flag pre st = (st1, none))
    (hpass : collisionCheckPasses env m = true)
    (hjoin : env.SecureJoin "/" m.HostPath = Except.ok path)
    (hread : env.ReadDevice path m.Permissions = Except.error err)
    (herr : err ≠ Error.ErrNotADevice) :
    specAddContainerConfigDevices env flag st
      = configDevicesLoop env flag post
          { Devices := st1.Devices, ResourcesDevices := st1.ResourcesDevices,
            calls := st1.calls ++ collisionCalls env m ++
              [Call.SecureJoin "/" m.HostPath, Call.DeviceFromPath path m.Permissions] } := by
  rw [specAddContainerConfigDevices, hdev,
    configDevicesLoop_step env flag pre post m st st1 _ hpre
      ((deviceBody_of_passes env flag m st1 hpass).trans
        (resolveAndAdd_of_readError env flag m _ path err hjoin hread herr))]

/-- C3 witness: on `refusedEnv` nothing is added for `/dev/bad`, the call goes
on to `/dev/null` and succeeds. -/
theorem specAddContainerConfigDevices_readError_witness :
    specAddContainerConfigDevices refusedEnv false State.empty
      = ({ Devices :=
            [{ Path := "/dev/null", Typ := "c", Major := 1, Minor := 3, FileMode := none,
               UID := some 0, GID := some 0 }],
           ResourcesDevices :=
            [{ Allow := true, Typ := "c", Major := some 1, Minor := some 3, Access := "rw" }],
           calls := [Call.SecureJoin "/" "/dev/bad", Call.DeviceFromPath "/dev/bad" "rw",
                     Call.SecureJoin "/" "/dev/null", Call.DeviceFromPath "/dev/null" "rw"] },
          none) :=
  specAddContainerConfigDevices_readError refusedEnv false []
    [{ ContainerPath := "/dev/null", HostPath := "/dev/null", Permissions := "rw" }]
    { ContainerPath := "/dev/bad", HostPath := "/dev/bad", Permissions := "rw" }
    State.empty State.empty "/dev/bad" (Error.other "permission denied")
    rfl rfl rfl rfl rfl (by decide)

/-- C10: a mapping whose device read reports "not a device" and whose resolved
path is not a directory is skipped: once the earlier mappings are done, no
entry and no rule is added for it, no error is returned for it and the loop
goes on with the later mappings; the device list, the cgroup-rule list and the
returned error are those of the same call on the list without that mapping. -/
theorem specAddContainerConfigDevices_skip (env : Env) (flag : Bool)
    (pre post : List Mapping) (m : Mapping) (st : State) (path : String) (e : Error)
    (hdev : env.Devices = pre ++ m :: post)
    (hpass : collisionCheckPasses env m = true)
    (hjoin : env.SecureJoin "/" m.HostPath = Except.ok path)
    (hread : env.ReadDevice path m.Permissions = Except.error Error.ErrNotADevice)
    (hdir : env.IsDirectory path = some e) :
    (∀ st1 : State, configDevicesLoop env flag pre st = (st1, none) →
      specAddContainerConfigDevices env flag st
        = configDevicesLoop env flag post
            { Devices := st1.Devices, ResourcesDevices := st1.ResourcesDevices,
              calls := st1.calls ++ collisionCalls env m ++
                [Call.SecureJoin "/" m.HostPath, Call.DeviceFromPath path m.Permissions,
                 Call.IsDirectory path] }) ∧
      (specAddContainerConfigDevices env flag st).1.Devices
        = (configDevicesLoop env flag (pre ++ post) st).1.Devices ∧
      (specAddContainerConfigDevices env flag st).1.ResourcesDevices
        = (configDevicesLoop env flag (pre ++ post) st).1.ResourcesDevices ∧
      (specAddContainerConfigDevices env flag st).2
        = (configDevicesLoop env flag (pre ++ post) st).2 := by
  have hstep : ∀ st1 : State, configDevicesLoop env flag pre st = (st1, none) →
      specAddContainerConfigDevices env flag st
        = configDevicesLoop env flag post
            { Devices := st1.Devices, ResourcesDevices := st1.ResourcesDevices,
              calls := st1.calls ++ collisionCalls env m ++
                [Call.SecureJoin "/" m.HostPath, Call.DeviceFromPath path m.Permissions,
                 Call.IsDirectory path] } := by
    intro st1 hpre
    rw [specAddContainerConfigDevices, hdev,
      configDevicesLoop_step env flag pre post m st st1 _ hpre
        ((deviceBody_of_passes env flag m st1 hpass).trans
          (resolveAndAdd_of_notDirectory env flag m _ path e hjoin hread hdir))]
  refine ⟨hstep, ?_⟩
  rcases hpre : configDevicesLoop env flag pre st with ⟨st1, _ | err⟩
  · rw [hstep st1 hpre, configDevicesLoop_append, hpre]
    exact configDevicesLoop_calls_irrelevant env flag post st1 _
  · rw [specAddContainerConfigDevices, hdev, configDevicesLoop_append,
      configDevicesLoop_append, hpre]
    exact ⟨rfl, rfl, rfl⟩

/-- C10 witness: on `fileEnv` the file mapping is skipped and the lists are
those of the call with the device mapping alone. -/
theorem specAddContainerConfigDevices_skip_witness :
    (specAddContainerConfigDevices fileEnv false State.empty).1.Devices
        = (configDevicesLoop fileEnv false
            [{ ContainerPath := "/dev/null", HostPath := "/dev/null", Permissions := "rw" }]
            State.empty).1.Devices ∧
      (specAddContainerConfigDevices fileEnv false State.empty).1.ResourcesDevices
        = (configDevicesLoop fileEnv false
            [{ ContainerPath := "/dev/null", HostPath := "/dev/null", Permissions := "rw" }]
            State.empty).1.ResourcesDevices ∧
      (specAddContainerConfigDevices fileEnv false State.empty).2
        = (configDevicesLoop fileEnv false
            [{ ContainerPath := "/dev/null", HostPath := "/dev/null", Permissions := "rw" }]
            State.empty).2 :=
  (specAddContainerConfigDevices_skip fileEnv false []
    [{ ContainerPath := "/dev/null", HostPath := "/dev/null", Permissions := "rw" }]
    { ContainerPath := "/hosts", HostPath := "/etc/hosts", Permissions := "r" }
    State.empty "/etc/hosts" (Error.other "not a directory") rfl rfl rfl rfl rfl).2

/-- C9: a mapping whose resolved host path reads as "not a device" and is a
directory is expanded by the walk, which visits paths below the resolved
directory. For each visited entry without walk error whose device read
succeeds (N of them), in walk order, one device entry and one cgroup rule are
added; the entries with a walk error or a failing read (M of them) add
nothing; no error is returned and the loop goes on. The entry's path is the
mapping's container path followed by the visited path without the resolved
directory in front; its uid and gid are the ones read on the host, whatever
the run-as ids and the flag. -/
theorem specAddContainerConfigDevices_directory (env : Env) (flag : Bool)
    (pre post : List Mapping) (m : Mapping) (st st1 : State) (path : String)
    (hdev : env.Devices = pre ++ m :: post)
    (hpre : configDevicesLoop env flag pre st = (st1, none))
    (hpass : collisionCheckPasses env m = true)
    (hjoin : env.SecureJoin "/" m.HostPath = Except.ok path)
    (hread : env.ReadDevice path m.Permissions = Except.error Error.ErrNotADevice)
    (hdir : env.IsDirectory path = none)
    (hwalk : ∀ w ∈ env.Walk path, path.data <+: w.dpath.data) :
    specAddContainerConfigDevices env flag st
        = configDevicesLoop env flag post
            { Devices := st1.Devices ++ (env.Walk path).filterMap (fun w =>
                match w.e with
                | some _ => none
                | none =>
                  match env.ReadDevice w.dpath m.Permissions with
                  | Except.error _ => none
                  | Except.ok i =>
                    some { Path := m.ContainerPath ++ String.mk (w.dpath.data.drop path.length),
                           Typ := String.singleton i.Typ, Major := i.Major, Minor := i.Minor,
                           FileMode := none, UID := some i.Uid, GID := some i.Gid }),
              ResourcesDevices := st1.ResourcesDevices ++ (env.Walk path).filterMap (fun w =>
                match w.e with
                | some _ => none
                | none =>
                  match env.ReadDevice w.dpath m.Permissions with
                  | Except.error _ => none
                  | Except.ok i =>
                    some { Allow := true, Typ := String.singleton i.Typ, Major := some i.Major,
                           Minor := some i.Minor, Access := m.Permissions }),
              calls := st1.calls ++ collisionCalls env m ++
                [Call.SecureJoin "/" m.HostPath, Call.DeviceFromPath path m.Permissions,
                 Call.IsDirectory path, Call.Walk path] ++
                (env.Walk path).filterMap (fun w =>
                  match w.e with
                  | some _ => none
                  | none => some (Call.DeviceFromPath w.dpath m.Permissions)) } ∧
      ((env.Walk path).filterMap (fun w =>
                match w.e with
                | some _ => none
                | none =>
                  match env.ReadDevice w.dpath m.Permissions with
                  | Except.error _ => none
                  | Except.ok i =>
                    some { Path := m.ContainerPath ++ String.mk (w.dpath.data.drop path.length),
                           Typ := String.singleton i.Typ, Major := i.Major, Minor := i.Minor,
                           FileMode := none, UID := some i.Uid, GID := some i.Gid }) : List LinuxDevice).length
        = ((env.Walk path).filter (fun w =>
            match w.e, env.ReadDevice w.dpath m.Permissions with
            | none, Except.ok _ => true
            | _, _ => false)).length ∧
      ((env.Walk path).filterMap (fun w =>
                match w.e with
                | some _ => none
                | none =>
                  match env.ReadDevice w.dpath m.Permissions with
                  | Except.error _ => none
                  | Except.ok i =>
                    some { Allow := true, Typ := String.singleton i.Typ, Major := some i.Major,
                           Minor := some i.Minor, Access := m.Permissions }) : List LinuxDeviceCgroup).length
        = ((env.Walk path).filter (fun w =>
            match w.e, env.ReadDevice w.dpath m.Permissions with
            | none, Except.ok _ => true
            | _, _ => false)).length := by
  refine ⟨?_, ?_, ?_⟩
  · rw [specAddContainerConfigDevices, hdev,
      configDevicesLoop_step env flag pre post m st st1 _ hpre
        ((deviceBody_of_passes env flag m st1 hpass).trans
          (resolveAndAdd_of_directory env flag m _ path hjoin hread hdir))]
    have hd : (env.Walk path).filterMap (walkDevice env m path)
        = (env.Walk path).filterMap (fun w =>
            match w.e with
            | some _ => none
            | none =>
              match env.ReadDevice w.dpath m.Permissions with
              | Except.error _ => none
              | Except.ok i =>
                some { Path := m.ContainerPath ++ String.mk (w.dpath.data.drop path.length),
                       Typ := String.singleton i.Typ, Major := i.Major, Minor := i.Minor,
                       FileMode := none, UID := some i.Uid, GID := some i.Gid }) := by
      apply List.filterMap_congr
      intro w hw
      unfold walkDevice
      rw [stringsReplace1_at_start w.dpath path m.ContainerPath (hwalk w hw)]
    rw [hd]
    rfl
  · rw [length_filterMap_eq_length_filter]
    congr 1
    apply List.filter_congr
    intro w _
    cases w.e <;> cases env.ReadDevice w.dpath m.Permissions <;> rfl
  · rw [length_filterMap_eq_length_filter]
    congr 1
    apply List.filter_congr
    intro w _
    cases w.e <;> cases env.ReadDevice w.dpath m.Permissions <;> rfl

/-- C9 witness: on `dirEnv` with the flag on, the one device below the
directory appears at `/dev/in/null` with the host uid 0, not the run-as uid
1000. -/
theorem specAddContainerConfigDevices_directory_witness :
    specAddContainerConfigDevices dirEnv true State.empty
      = ({ Devices :=
            [{ Path := "/dev/in/null", Typ := "c", Major := 1, Minor := 3, FileMode := none,
               UID := some 0, GID := some 0 }],
           ResourcesDevices :=
            [{ Allow := true, Typ := "c", Major := some 1, Minor := some 3, Access := "rw" }],
           calls :=
            [Call.Stat "/dev/in", Call.SecureJoin "/" "/dev/dir",
             Call.DeviceFromPath "/dev/dir" "rw", Call.IsDirectory "/dev/dir",
             Call.Walk "/dev/dir", Call.DeviceFromPath "/dev/dir" "rw",
             Call.DeviceFromPath "/dev/dir/file" "rw",
             Call.DeviceFromPath "/dev/dir/null" "rw"] }, none) :=
  (specAddContainerConfigDevices_directory dirEnv true [] []
    { ContainerPath := "/dev/in", HostPath := "/dev/dir", Permissions := "rw" }
    State.empty State.empty "/dev/dir" rfl rfl rfl rfl rfl rfl (by decide)).1

/-- The collision case for a mapping anywhere in the list: the call returns
the error of the first earlier mapping that fails, if there is one, and
otherwise the security-violation error, with the existence check as the only
collaborator call made for the colliding mapping. -/
theorem configDevicesLoop_collision (env : Env) (flag : Bool)
    (pre post : List Mapping) (m : Mapping) (st : State)
    (hp : env.Privileged = true)
    (hne : m.ContainerPath ≠ m.HostPath)
    (hs : env.Stat m.ContainerPath = none) :
    configDevicesLoop env flag (pre ++ m :: post) st
      = (match configDevicesLoop env flag pre st with
         | (st1, some err) => (st1, some err)
         | (st1, none) =>
           ({ Devices := st1.Devices, ResourcesDevices := st1.ResourcesDevices,
              calls := st1.calls ++ [Call.Stat m.ContainerPath] }, some securityViolation)) := by
  rw [configDevicesLoop_append]
  rcases hpre : configDevicesLoop env flag pre st with ⟨st1, _ | err⟩
  · simp only [configDevicesLoop, deviceBody_of_exists env flag m st1 hp hne hs]
  · rfl

/-- C2: in a privileged container, when the loop reaches a mapping whose
container path differs from its host path and the existence check reports that
the container path exists on the host, the call returns the security-violation
error; the lists are the ones the earlier mappings left (no device entry and
no cgroup rule for the mapping), and the only collaborator call made for the
mapping is the existence check: its host path is neither resolved nor read.
The same holds for `SpecAddDevices`, which ends with this loop. -/
theorem specAddContainerConfigDevices_collision (env : Env) (flag : Bool)
    (pre post : List Mapping) (m : Mapping) (st st1 : State)
    (hdev : env.Devices = pre ++ m :: post)
    (hpre : configDevicesLoop env flag pre st = (st1, none))
    (hp : env.Privileged = true)
    (hne : m.ContainerPath ≠ m.HostPath)
    (hs : env.Stat m.ContainerPath = none) :
    specAddContainerConfigDevices env flag st
        = ({ Devices := st1.Devices, ResourcesDevices := st1.ResourcesDevices,
             calls := st1.calls ++ [Call.Stat m.ContainerPath] },
            some (Error.errorf 
              "privileged container was configured with a device container path that already exists on the host.")) ∧
      (∀ (cfg ann : List ConfigDevice) (pwhd : Bool) (s0 : State),
        specAddHostDevicesIfPrivileged env pwhd
            (addDeviceRequests ann (addDeviceRequests cfg { s0 with Devices := [] }))
          = (st, none) →
        SpecAddDevices env cfg ann pwhd flag s0
          = ({ Devices := st1.Devices, ResourcesDevices := st1.ResourcesDevices,
               calls := st1.calls ++ [Call.Stat m.ContainerPath] },
              some (Error.errorf 
              "privileged container was configured with a device container path that already exists on the host."))) := by
  have hmain : specAddContainerConfigDevices env flag st
      = ({ Devices := st1.Devices, ResourcesDevices := st1.ResourcesDevices,
           calls := st1.calls ++ [Call.Stat m.ContainerPath] },
          some (Error.errorf 
              "privileged container was configured with a device container path that already exists on the host.")) := by
    rw [specAddContainerConfigDevices, hdev,
      configDevicesLoop_collision env flag pre post m st hp hne hs, hpre]
    rfl
  refine ⟨hmain, ?_⟩
  intro cfg ann pwhd s0 hhost
  simp only [SpecAddDevices, hhost]
  exact hmain

/-- C2 witness: on `collisionEnv` the call fails with the security-violation
error; the spec holds the entry and rule of the first mapping only, the
existence check of `/etc/passwd` is the last collaborator call, and `/dev/sda`
is neither resolved nor read. -/
theorem specAddContainerConfigDevices_collision_witness :
    specAddContainerConfigDevices collisionEnv false State.empty
      = ({ Devices :=
            [{ Path := "/dev/null", Typ := "c", Major := 1, Minor := 3, FileMode := none,
               UID := some 0, GID := some 0 }],
           ResourcesDevices :=
            [{ Allow := true, Typ := "c", Major := some 1, Minor := some 3, Access := "rw" }],
           calls := [Call.SecureJoin "/" "/dev/null", Call.DeviceFromPath "/dev/null" "rw",
                     Call.Stat "/etc/passwd"] },
          some (Error.errorf 
              "privileged container was configured with a device container path that already exists on the host.")) :=
  (specAddContainerConfigDevices_collision collisionEnv false
    [{ ContainerPath := "/dev/null", HostPath := "/dev/null", Permissions := "rw" }]
    [{ ContainerPath := "/dev/zero", HostPath := "/dev/null", Permissions := "rw" }]
    { ContainerPath := "/etc/passwd", HostPath := "/dev/sda", Permissions := "rw" }
    State.empty
    { Devices :=
        [{ Path := "/dev/null", Typ := "c", Major := 1, Minor := 3, FileMode := none,
           UID := some 0, GID := some 0 }],
      ResourcesDevices :=
        [{ Allow := true, Typ := "c", Major := some 1, Minor := some 3, Access := "rw" }],
      calls := [Call.SecureJoin "/" "/dev/null", Call.DeviceFromPath "/dev/null" "rw"] }
    rfl rfl rfl (by decide) rfl).1

/-! ## The whole build (`SpecAddDevices`) -/

/-- C6, refuted as stated: for a privileged container without suppression
(`hostEnv`), a successful call leaves the wildcard rule as the only cgroup
rule; the rule of the configured request has been removed. -/
theorem SpecAddDevices_rule_removed_counterexample :
    (SpecAddDevices hostEnv [fuseRequest] [] false false State.empty).2 = none ∧
      (SpecAddDevices hostEnv [fuseRequest] [] false false State.empty).1.ResourcesDevices
        = [{ Allow := true, Typ := "", Major := none, Minor := none, Access := "rwm" }] ∧
      fuseRequest.Resource ∉
        (SpecAddDevices hostEnv [fuseRequest] [] false false State.empty).1.ResourcesDevices := by
  have h : (SpecAddDevices hostEnv [fuseRequest] [] false false State.empty).1.ResourcesDevices
      = [{ Allow := true, Typ := "", Major := none, Minor := none, Access := "rwm" }] := rfl
  refine ⟨rfl, h, ?_⟩
  rw [h]
  decide

/-- C6, amended: after `SpecAddDevices` the device list starts with one entry
per configured request followed by one per annotation request, each copied
unchanged, for every value of the two flags; no later step removes them. When
the container is not privileged or host-device suppression is on, the
cgroup-rule list holds, after the rules it held before the call, one rule per
configured request followed by one per annotation request, copied unchanged.
When the privileged host passthrough runs and the call succeeds, the rules of
the requests are gone: the rule list starts with the wildcard rule, followed
only by the rules of the per-container mappings. -/
theorem SpecAddDevices_requests (env : Env) (cfg ann : List ConfigDevice)
    (pwhd flag : Bool) (st : State) :
    (∃ rest, (SpecAddDevices env cfg ann pwhd flag st).1.Devices
        = cfg.map ConfigDevice.Device ++ ann.map ConfigDevice.Device ++ rest) ∧
      (env.Privileged = false ∨ pwhd = true →
        ∃ rest, (SpecAddDevices env cfg ann pwhd flag st).1.ResourcesDevices
          = st.ResourcesDevices ++ cfg.map ConfigDevice.Resource ++
              ann.map ConfigDevice.Resource ++ rest) ∧
      (env.Privileged = true → pwhd = false →
        (SpecAddDevices env cfg ann pwhd flag st).2 = none →
        (SpecAddDevices env cfg ann pwhd flag st).1.ResourcesDevices
          = { Allow := true, Typ := "", Major := none, Minor := none, Access := "rwm" } ::
              (specAddContainerConfigDevices env flag State.empty).1.ResourcesDevices) := by
  refine ⟨?_, ?_, ?_⟩
  · by_cases h : env.Privileged = false ∨ pwhd = true
    · rw [SpecAddDevices_of_skipped env cfg ann pwhd flag st h, configDevicesLoop_frame]
      exact ⟨_, rfl⟩
    · have hp : env.Privileged = true := by
        cases hpv : env.Privileged
        · exact absurd (Or.inl hpv) h
        · rfl
      have hs : pwhd = false := by
        cases hsv : pwhd
        · rfl
        · exact absurd (Or.inr hsv) h
      subst hs
      cases hL : env.HostDevices with
      | error err =>
        rw [SpecAddDevices_of_enumerationError env cfg ann flag st err hp hL]
        exact ⟨[], by simp⟩
      | ok L =>
        rw [SpecAddDevices_of_hostDevices env cfg ann flag st L hp hL, configDevicesLoop_frame]
        exact ⟨_, List.append_assoc _ _ _⟩
  · intro h
    rw [SpecAddDevices_of_skipped env cfg ann pwhd flag st h, configDevicesLoop_frame]
    exact ⟨_, rfl⟩
  · intro hp hs hok
    subst hs
    cases hL : env.HostDevices with
    | error err =>
      rw [SpecAddDevices_of_enumerationError env cfg ann flag st err hp hL] at hok
      simp at hok
    | ok L =>
      rw [SpecAddDevices_of_hostDevices env cfg ann flag st L hp hL, configDevicesLoop_frame]
      simp [State.append, wildcardRule, specAddContainerConfigDevices]

/-- C6 witness: an unprivileged container keeps the rule of its configured
request after the rule the spec already held, and a privileged one
(`hostEnv`) is left with the wildcard rule alone. -/
theorem SpecAddDevices_requests_witness :
    (∃ rest, (SpecAddDevices Env.bare [fuseRequest] [] false false
          { Devices := [], ResourcesDevices := [wildcardRule], calls := [] }).1.ResourcesDevices
        = [wildcardRule] ++ [fuseRequest].map ConfigDevice.Resource ++
            ([] : List ConfigDevice).map ConfigDevice.Resource ++ rest) ∧
      (SpecAddDevices hostEnv [fuseRequest] [] false false State.empty).1.ResourcesDevices
        = { Allow := true, Typ := "", Major := none, Minor := none, Access := "rwm" } ::
            (specAddContainerConfigDevices hostEnv false State.empty).1.ResourcesDevices :=
  ⟨(SpecAddDevices_requests Env.bare [fuseRequest] [] false false
      { Devices := [], ResourcesDevices := [wildcardRule], calls := [] }).2.1 (Or.inl rfl),
   (SpecAddDevices_requests hostEnv [fuseRequest] [] false false State.empty).2.2 rfl rfl rfl⟩

/-- C7, refuted as stated: for an unprivileged container the cgroup-rule list
is not cleared on entry, so a second call on the same spec leaves the rule of
the configured request twice, where one call leaves it once. -/
theorem SpecAddDevices_accumulates_counterexample :
    (SpecAddDevices Env.bare [fuseRequest] [] false false State.empty).2 = none ∧
      (SpecAddDevices Env.bare [fuseRequest] [] false false State.empty).1.ResourcesDevices
        = [fuseRequest.Resource] ∧
      (SpecAddDevices Env.bare [fuseRequest] [] false false
          (SpecAddDevices Env.bare [fuseRequest] [] false false State.empty).1).2 = none ∧
      (SpecAddDevices Env.bare [fuseRequest] [] false false
          (SpecAddDevices Env.bare [fuseRequest] [] false false State.empty).1).1.ResourcesDevices
        = [fuseRequest.Resource, fuseRequest.Resource] ∧
      (SpecAddDevices Env.bare [fuseRequest] [] false false
          (SpecAddDevices Env.bare [fuseRequest] [] false false State.empty).1).1.ResourcesDevices
        ≠ (SpecAddDevices Env.bare [fuseRequest] [] false false State.empty).1.ResourcesDevices := by
  have h1 : (SpecAddDevices Env.bare [fuseRequest] [] false false State.empty).1.ResourcesDevices
      = [fuseRequest.Resource] := rfl
  have h2 : (SpecAddDevices Env.bare [fuseRequest] [] false false
      (SpecAddDevices Env.bare [fuseRequest] [] false false State.empty).1).1.ResourcesDevices
      = [fuseRequest.Resource, fuseRequest.Resource] := rfl
  refine ⟨rfl, h1, rfl, h2, ?_⟩
  rw [h2, h1]
  decide

/-- C7, amended: `SpecAddDevices` clears the device list on entry, not the
cgroup-rule list. For identical inputs and collaborator answers the device
list and the returned error do not depend on what the two lists held before
the call, so a second call on the same spec leaves the same device list as the
first. The cgroup-rule list does not depend on the prior content when the
privileged host passthrough runs and the host enumeration succeeds (in
particular after every successful call of a privileged container without
suppression); in every other case (container not privileged, suppression on,
or enumeration failing) it is the rule list held before the call followed by
the rules the same call leaves on an empty spec, so rules accumulate over
repeated calls. -/
theorem SpecAddDevices_prior_state (env : Env) (cfg ann : List ConfigDevice)
    (pwhd flag : Bool) (st st' : State) :
    (SpecAddDevices env cfg ann pwhd flag st).1.Devices
        = (SpecAddDevices env cfg ann pwhd flag st').1.Devices ∧
      (SpecAddDevices env cfg ann pwhd flag st).2
        = (SpecAddDevices env cfg ann pwhd flag st').2 ∧
      (SpecAddDevices env cfg ann pwhd flag
          (SpecAddDevices env cfg ann pwhd flag st).1).1.Devices
        = (SpecAddDevices env cfg ann pwhd flag st).1.Devices ∧
      (env.Privileged = true → pwhd = false → (∃ L, env.HostDevices = Except.ok L) →
        (SpecAddDevices env cfg ann pwhd flag st).1.ResourcesDevices
          = (SpecAddDevices env cfg ann pwhd flag st').1.ResourcesDevices) ∧
      (env.Privileged = true → pwhd = false →
        (SpecAddDevices env cfg ann pwhd flag st).2 = none →
        (SpecAddDevices env cfg ann pwhd flag st).1.ResourcesDevices
          = (SpecAddDevices env cfg ann pwhd flag st').1.ResourcesDevices) ∧
      (env.Privileged = false ∨ pwhd = true ∨ (∃ err, env.HostDevices = Except.error err) →
        (SpecAddDevices env cfg ann pwhd flag st).1.ResourcesDevices
          = st.ResourcesDevices ++
              (SpecAddDevices env cfg ann pwhd flag State.empty).1.ResourcesDevices) := by
  have hind : ∀ s s' : State,
      (SpecAddDevices env cfg ann pwhd flag s).1.Devices
          = (SpecAddDevices env cfg ann pwhd flag s').1.Devices ∧
        (SpecAddDevices env cfg ann pwhd flag s).2
          = (SpecAddDevices env cfg ann pwhd flag s').2 := by
    intro s s'
    by_cases h : env.Privileged = false ∨ pwhd = true
    · rw [SpecAddDevices_of_skipped env cfg ann pwhd flag s h,
        SpecAddDevices_of_skipped env cfg ann pwhd flag s' h,
        configDevicesLoop_frame env flag env.Devices
          { Devices := _, ResourcesDevices := s.ResourcesDevices ++ _ ++ _, calls := _ },
        configDevicesLoop_frame env flag env.Devices
          { Devices := _, ResourcesDevices := s'.ResourcesDevices ++ _ ++ _, calls := _ }]
      simp [State.append]
    · have hp : env.Privileged = true := by
        cases hpv : env.Privileged
        · exact absurd (Or.inl hpv) h
        · rfl
      have hs : pwhd = false := by
        cases hsv : pwhd
        · rfl
        · exact absurd (Or.inr hsv) h
      subst hs
      cases hL : env.HostDevices with
      | error err =>
        rw [SpecAddDevices_of_enumerationError env cfg ann flag s err hp hL,
          SpecAddDevices_of_enumerationError env cfg ann flag s' err hp hL]
        exact ⟨rfl, rfl⟩
      | ok L =>
        rw [SpecAddDevices_of_hostDevices env cfg ann flag s L hp hL,
          SpecAddDevices_of_hostDevices env cfg ann flag s' L hp hL,
          configDevicesLoop_frame env flag env.Devices
            { Devices := _, ResourcesDevices := _, calls := s.calls ++ _ },
          configDevicesLoop_frame env flag env.Devices
            { Devices := _, ResourcesDevices := _, calls := s'.calls ++ _ }]
        simp [State.append]
  have hok : ∀ L : List Device, env.Privileged = true → pwhd = false →
      env.HostDevices = Except.ok L →
      (SpecAddDevices env cfg ann pwhd flag st).1.ResourcesDevices
        = (SpecAddDevices env cfg ann pwhd flag st').1.ResourcesDevices := by
    intro L hp hs hL
    subst hs
    rw [SpecAddDevices_of_hostDevices env cfg ann flag st L hp hL,
      SpecAddDevices_of_hostDevices env cfg ann flag st' L hp hL,
      configDevicesLoop_frame env flag env.Devices
        { Devices := _, ResourcesDevices := _, calls := st.calls ++ _ },
      configDevicesLoop_frame env flag env.Devices
        { Devices := _, ResourcesDevices := _, calls := st'.calls ++ _ }]
    rfl
  have hskip : env.Privileged = false ∨ pwhd = true →
      (SpecAddDevices env cfg ann pwhd flag st).1.ResourcesDevices
        = st.ResourcesDevices ++
            (SpecAddDevices env cfg ann pwhd flag State.empty).1.ResourcesDevices := by
    intro h
    rw [SpecAddDevices_of_skipped env cfg ann pwhd flag st h,
      SpecAddDevices_of_skipped env cfg ann pwhd flag State.empty h,
      configDevicesLoop_frame env flag env.Devices
        { Devices := _, ResourcesDevices := st.ResourcesDevices ++ _ ++ _, calls := _ },
      configDevicesLoop_frame env flag env.Devices
        { Devices := _, ResourcesDevices := State.empty.ResourcesDevices ++ _ ++ _, calls := _ }]
    simp [State.append, State.empty]
  refine ⟨(hind st st').1, (hind st st').2, (hind _ st).1, ?_, ?_, ?_⟩
  · rintro hp hs ⟨L, hL⟩
    exact hok L hp hs hL
  · intro hp hs hsucc
    cases hL : env.HostDevices with
    | error err =>
      subst hs
      rw [SpecAddDevices_of_enumerationError env cfg ann flag st err hp hL] at hsucc
      simp at hsucc
    | ok L => exact hok L hp hs hL
  · intro h
    by_cases hsk : env.Privileged = false ∨ pwhd = true
    · exact hskip hsk
    · have hp : env.Privileged = true := by
        cases hpv : env.Privileged
        · exact absurd (Or.inl hpv) hsk
        · rfl
      have hs : pwhd = false := by
        cases hsv : pwhd
        · rfl
        · exact absurd (Or.inr hsv) hsk
      subst hs
      rcases h with h | h | ⟨err, hE⟩
      · exact absurd (Or.inl h) hsk
      · exact absurd (Or.inr h) hsk
      · rw [SpecAddDevices_of_enumerationError env cfg ann flag st err hp hE,
          SpecAddDevices_of_enumerationError env cfg ann flag State.empty err hp hE]
        simp [State.empty]

/-- C7 witness: on the unprivileged host the rules after a call are the prior
rule followed by the rules of a call on an empty spec; on the privileged host
`collisionEnv`, whose enumeration succeeds, the rule lists left by the (failing)
call from two different prior specs agree; on the privileged host `hostEnv`
the same holds for the successful call. -/
theorem SpecAddDevices_prior_state_witness :
    (SpecAddDevices Env.bare [fuseRequest] [] false false
        { Devices := [fuseRequest.Device], ResourcesDevices := [wildcardRule],
          calls := [] }).1.ResourcesDevices
      = [wildcardRule] ++
          (SpecAddDevices Env.bare [fuseRequest] [] false false State.empty).1.ResourcesDevices ∧
    (SpecAddDevices collisionEnv [fuseRequest] [] false false
        { Devices := [fuseRequest.Device], ResourcesDevices := [fuseRequest.Resource],
          calls := [] }).1.ResourcesDevices
      = (SpecAddDevices collisionEnv [fuseRequest] [] false false
          State.empty).1.ResourcesDevices ∧
    (SpecAddDevices hostEnv [fuseRequest] [] false false
        { Devices := [fuseRequest.Device], ResourcesDevices := [fuseRequest.Resource],
          calls := [] }).1.ResourcesDevices
      = (SpecAddDevices hostEnv [fuseRequest] [] false false State.empty).1.ResourcesDevices :=
  ⟨(SpecAddDevices_prior_state Env.bare [fuseRequest] [] false false
      { Devices := [fuseRequest.Device], ResourcesDevices := [wildcardRule], calls := [] }
      State.empty).2.2.2.2.2 (Or.inl rfl),
   (SpecAddDevices_prior_state collisionEnv [fuseRequest] [] false false
      { Devices := [fuseRequest.Device], ResourcesDevices := [fuseRequest.Resource],
        calls := [] }
      State.empty).2.2.2.1 rfl rfl ⟨_, rfl⟩,
   (SpecAddDevices_prior_state hostEnv [fuseRequest] [] false false
      { Devices := [fuseRequest.Device], ResourcesDevices := [fuseRequest.Resource],
        calls := [] }
      State.empty).2.2.2.2.1 rfl rfl rfl⟩

end Container
